import Mathlib

/-!
Shallow embedding of the socket.io SNS emitter, src/lib/index.ts.

The emitter builds structured control messages (broadcast event, room
join/leave, forced disconnect, cross-server custom event) and hands them to
an SNS publish primitive. The SNS client is modelled as a function from a
publish input to a success-or-error outcome; the binary codec
(notepack.io encode) is an opaque injective collaborator, so the encoded
bytes are represented by the structured value they encode.
-/

/-- Payload values handed to the binary codec: strings, numbers, booleans,
ordered sequences, key-value objects (keys in insertion order), raw byte
buffers, and function values (only the runtime type of a function matters,
for the acknowledgement check in serverSideEmit). -/
inductive WireVal
  | str (s : String)
  | num (n : Int)
  | bool (b : Bool)
  | list (l : List WireVal)
  | obj (fields : List (String × WireVal))
  | bytes (l : List Nat)
  | fn

/-- JavaScript typeof v === "function" check on a payload value. -/
def WireVal.isFn : WireVal → Bool
  | .fn => true
  | _ => false

/-- Field lookup in an object value, none on any other value. -/
def WireVal.field (v : WireVal) (key : String) : Option WireVal :=
  match v with
  | .obj fields => fields.lookup key
  | _ => none

/-- A message attribute of the SNS PublishCommand: a String attribute
(DataType "String") or a Binary attribute (DataType "Binary") holding the
codec encoding of a structured value. -/
inductive MessageAttributeValue
  | strVal (s : String)
  | binVal (encoded : WireVal)

/-- The input handed to the SNS client by the PublishCommand built in
publish (src/lib/index.ts lines 85-92): the topic ARN, the message body
String(type), and the message attributes in insertion order. -/
structure SnsPublishInput where
  topicArn : String
  message : String
  attrs : List (String × MessageAttributeValue)

/-- The SNS client collaborator: sending a publish input either succeeds or
fails with an error (a rejected promise in the source). -/
abbrev SNSClient := SnsPublishInput → Except String Unit

/-- Observable outcome of one call to publish: the input handed to the SNS
client, and the diagnostic logged by the catch handler when the client
failed (console.log in the source). The function never propagates the
error, mirroring the catch at the publish boundary. -/
structure PublishRecord where
  input : SnsPublishInput
  logged : Option String

/-- The constant source identifier, src/lib/index.ts line 20. -/
def UID : String := "emitter"

/-- Request types for messages between nodes, the local enum of
src/lib/index.ts lines 26-34. This enum is declared in the source but no
publish call uses it. -/
def RequestType.SOCKETS : Nat := 0

/-- RequestType.ALL_ROOMS of the local enum in src/lib/index.ts. -/
def RequestType.ALL_ROOMS : Nat := 1

/-- RequestType.REMOTE_JOIN of the local enum in src/lib/index.ts. -/
def RequestType.REMOTE_JOIN : Nat := 2

/-- RequestType.REMOTE_LEAVE of the local enum in src/lib/index.ts. -/
def RequestType.REMOTE_LEAVE : Nat := 3

/-- RequestType.REMOTE_DISCONNECT of the local enum in src/lib/index.ts. -/
def RequestType.REMOTE_DISCONNECT : Nat := 4

/-- RequestType.REMOTE_FETCH of the local enum in src/lib/index.ts. -/
def RequestType.REMOTE_FETCH : Nat := 5

/-- RequestType.SERVER_SIDE_EMIT of the local enum in src/lib/index.ts. -/
def RequestType.SERVER_SIDE_EMIT : Nat := 6

/-- MessageType.BROADCAST of the MessageType enum imported from the
external socket.io-adapter package (src/lib/index.ts line 1). That enum
assigns INITIAL_HEARTBEAT = 1 and then sequential values: HEARTBEAT = 2,
BROADCAST = 3, SOCKETS_JOIN = 4, SOCKETS_LEAVE = 5, DISCONNECT_SOCKETS = 6,
FETCH_SOCKETS = 7, FETCH_SOCKETS_RESPONSE = 8, SERVER_SIDE_EMIT = 9. -/
def MessageType.BROADCAST : Nat := 3

/-- MessageType.SOCKETS_JOIN of the external socket.io-adapter enum. -/
def MessageType.SOCKETS_JOIN : Nat := 4

/-- MessageType.SOCKETS_LEAVE of the external socket.io-adapter enum. -/
def MessageType.SOCKETS_LEAVE : Nat := 5

/-- MessageType.DISCONNECT_SOCKETS of the external socket.io-adapter enum. -/
def MessageType.DISCONNECT_SOCKETS : Nat := 6

/-- MessageType.SERVER_SIDE_EMIT of the external socket.io-adapter enum. -/
def MessageType.SERVER_SIDE_EMIT : Nat := 9

/-- PacketType.EVENT of the enum imported from the external
socket.io-parser package: CONNECT = 0, DISCONNECT = 1, EVENT = 2. -/
def PacketType.EVENT : Int := 2

/-- The data message attribute entry: present exactly when a payload is
given (if (data) in src/lib/index.ts line 77; every payload passed by the
callers is an object, hence truthy). -/
def dataAttr : Option WireVal → List (String × MessageAttributeValue)
  | some d => [("data", .binVal d)]
  | none => []

/-- The message attributes assembled by publish, src/lib/index.ts lines
62-83, in insertion order: nsp (when the namespace string is truthy, that
is non-empty), uid (UID is a non-empty constant, hence always present),
then data. -/
def publishAttrs (nsp : String) (data : Option WireVal) :
    List (String × MessageAttributeValue) :=
  (if nsp ≠ "" then [("nsp", .strVal nsp)] else []) ++
  (if UID ≠ "" then [("uid", .strVal UID)] else []) ++
  dataAttr data

/-- The diagnostic logged by the catch handler on the send promise
(.catch(console.log), src/lib/index.ts line 96): the error when the send
failed, nothing when it succeeded. -/
def publishOutcome : Except String Unit → Option String
  | .ok _ => none
  | .error e => some e

/-- The PublishCommand input built by publish: TopicArn, Message set to
String(type), and the message attributes. -/
def publishInput (topic : String) (type : Nat) (nsp : String)
    (data : Option WireVal) : SnsPublishInput :=
  { topicArn := topic, message := toString type, attrs := publishAttrs nsp data }

/-- The publish helper of src/lib/index.ts lines 53-100. It always hands
the assembled input to the SNS client and converts a failed send into a
logged diagnostic; no error reaches the caller (the try/catch plus
.catch(console.log) of the source). The uid parameter is accepted but the
source reads the UID constant instead. -/
def publish (client : SNSClient) (topic : String) (type : Nat)
    (nsp : String) (uid : String) (data : Option WireVal := none) :
    PublishRecord :=
  { input := publishInput topic type nsp data
    logged := publishOutcome (client (publishInput topic type nsp data)) }

/-- BroadcastOptions of src/lib/index.ts lines 43-46. -/
structure BroadcastOptions where
  nsp : String
  topicArn : String

/-- BroadcastFlags of src/lib/index.ts lines 48-51: both flags optional. -/
structure BroadcastFlags where
  volatile : Option Bool := none
  compress : Option Bool := none
deriving DecidableEq

/-- Wire rendering of a flags object: a key is present exactly when the
flag was set. -/
def flagsToWire (f : BroadcastFlags) : WireVal :=
  .obj ((match f.volatile with
         | some b => [("volatile", WireVal.bool b)]
         | none => []) ++
        (match f.compress with
         | some b => [("compress", WireVal.bool b)]
         | none => []))

/-- A room argument: a single room name or a list of room names. -/
abbrev StrOrList := Sum String (List String)

/-- JavaScript Set.add on a set represented as its insertion-ordered,
duplicate-free element list. -/
def setAdd (s : List String) (x : String) : List String :=
  if x ∈ s then s else s ++ [x]

/-- Copy a set and add a single room or every room of a list, the room
normalization of BroadcastOperator.to and BroadcastOperator.except. -/
def addAll (s : List String) (room : StrOrList) : List String :=
  match room with
  | .inl r => setAdd s r
  | .inr rs => rs.foldl setAdd s

/-- Array.isArray(rooms) ? rooms : [rooms], the list normalization used by
socketsJoin and socketsLeave. -/
def asList : StrOrList → List String
  | .inl r => [r]
  | .inr rs => rs

/-- RESERVED_EVENTS of src/lib/index.ts lines 277-284. -/
def RESERVED_EVENTS : List String :=
  ["connect", "connect_error", "disconnect", "disconnecting",
   "newListener", "removeListener"]

/-- The errors thrown by the emitter before any publish call. -/
inductive EmitterError
  | reservedEvent (ev : String)
  | ackUnsupported
deriving DecidableEq

/-- The Error message text of each thrown error in the source. -/
def EmitterError.message : EmitterError → String
  | .reservedEvent ev => "\"" ++ ev ++ "\" is a reserved event name"
  | .ackUnsupported => "Acknowledgements are not supported"

/-- typeof args[args.length - 1] === "function" (src/lib/index.ts line
258); on an empty argument list the indexed value is undefined, whose
typeof is not "function". -/
def lastIsFunction (args : List WireVal) : Bool :=
  match args.getLast? with
  | some v => v.isFn
  | none => false

/-- BroadcastOperator of src/lib/index.ts lines 286-501; the constructor
defaults give fresh empty room and exclusion sets and empty flags. -/
structure BroadcastOperator where
  snsClient : SNSClient
  broadcastOptions : BroadcastOptions
  rooms : List String := []
  exceptRooms : List String := []
  flags : BroadcastFlags := {}

/-- BroadcastOperator.to: a new instance whose room set is a copy of the
receiver's with the given room(s) added. -/
def BroadcastOperator.to (b : BroadcastOperator) (room : StrOrList) :
    BroadcastOperator :=
  { snsClient := b.snsClient, broadcastOptions := b.broadcastOptions,
    rooms := addAll b.rooms room, exceptRooms := b.exceptRooms,
    flags := b.flags }

/-- BroadcastOperator.in, which delegates to to (the method is named in in
the source, a keyword here). -/
def BroadcastOperator.in_ (b : BroadcastOperator) (room : StrOrList) :
    BroadcastOperator :=
  b.to room

/-- BroadcastOperator.except: a new instance whose exclusion set is a copy
of the receiver's with the given room(s) added. -/
def BroadcastOperator.except (b : BroadcastOperator) (room : StrOrList) :
    BroadcastOperator :=
  { snsClient := b.snsClient, broadcastOptions := b.broadcastOptions,
    rooms := b.rooms, exceptRooms := addAll b.exceptRooms room,
    flags := b.flags }

/-- BroadcastOperator.compress: Object.assign({}, this.flags, {compress}),
a new instance with only the compress flag overwritten. -/
def BroadcastOperator.compress (b : BroadcastOperator) (c : Bool) :
    BroadcastOperator :=
  { snsClient := b.snsClient, broadcastOptions := b.broadcastOptions,
    rooms := b.rooms, exceptRooms := b.exceptRooms,
    flags := { volatile := b.flags.volatile, compress := some c } }

/-- BroadcastOperator.volatile: Object.assign({}, this.flags,
{volatile: true}). -/
def BroadcastOperator.volatile (b : BroadcastOperator) : BroadcastOperator :=
  { snsClient := b.snsClient, broadcastOptions := b.broadcastOptions,
    rooms := b.rooms, exceptRooms := b.exceptRooms,
    flags := { volatile := some true, compress := b.flags.compress } }

/-- BroadcastOperator.emit, src/lib/index.ts lines 396-431. Returns the
list of publish invocations made (each one a record of the input handed to
the SNS client and the logged diagnostic) together with the awaited
result: a thrown reserved-event error, or true. -/
def BroadcastOperator.emit (b : BroadcastOperator) (ev : String)
    (args : List WireVal) : List PublishRecord × Except EmitterError Bool :=
  if ev ∈ RESERVED_EVENTS then
    ([], .error (.reservedEvent ev))
  else
    ([publish b.snsClient b.broadcastOptions.topicArn MessageType.BROADCAST
        b.broadcastOptions.nsp UID
        (some (.obj [
          ("packet", .obj [
            ("type", .num PacketType.EVENT),
            ("data", .list (.str ev :: args)),
            ("nsp", .str b.broadcastOptions.nsp)]),
          ("opts", .obj [
            ("rooms", .list (b.rooms.map WireVal.str)),
            ("flags", flagsToWire b.flags),
            ("except", .list (b.exceptRooms.map WireVal.str))])]))],
     .ok true)

/-- BroadcastOperator.socketsJoin, src/lib/index.ts lines 439-454. -/
def BroadcastOperator.socketsJoin (b : BroadcastOperator)
    (rooms : StrOrList) : List PublishRecord × Except EmitterError Unit :=
  ([publish b.snsClient b.broadcastOptions.topicArn MessageType.SOCKETS_JOIN
      b.broadcastOptions.nsp UID
      (some (.obj [
        ("opts", .obj [
          ("rooms", .list (b.rooms.map WireVal.str)),
          ("except", .list (b.exceptRooms.map WireVal.str))]),
        ("rooms", .list ((asList rooms).map WireVal.str))]))],
   .ok ())

/-- BroadcastOperator.socketsLeave, src/lib/index.ts lines 462-477. -/
def BroadcastOperator.socketsLeave (b : BroadcastOperator)
    (rooms : StrOrList) : List PublishRecord × Except EmitterError Unit :=
  ([publish b.snsClient b.broadcastOptions.topicArn MessageType.SOCKETS_LEAVE
      b.broadcastOptions.nsp UID
      (some (.obj [
        ("opts", .obj [
          ("rooms", .list (b.rooms.map WireVal.str)),
          ("except", .list (b.exceptRooms.map WireVal.str))]),
        ("rooms", .list ((asList rooms).map WireVal.str))]))],
   .ok ())

/-- BroadcastOperator.disconnectSockets, src/lib/index.ts lines 485-500. -/
def BroadcastOperator.disconnectSockets (b : BroadcastOperator)
    (close : Bool := false) : List PublishRecord × Except EmitterError Unit :=
  ([publish b.snsClient b.broadcastOptions.topicArn
      MessageType.DISCONNECT_SOCKETS b.broadcastOptions.nsp UID
      (some (.obj [
        ("opts", .obj [
          ("rooms", .list (b.rooms.map WireVal.str)),
          ("except", .list (b.exceptRooms.map WireVal.str))]),
        ("close", .bool close)]))],
   .ok ())

/-- A freshly created, unscoped BroadcastOperator: new
BroadcastOperator(snsClient, broadcastOptions) with the constructor
defaults for the room set, the exclusion set and the flags. -/
def freshOperator (client : SNSClient) (opts : BroadcastOptions) :
    BroadcastOperator :=
  { snsClient := client, broadcastOptions := opts }

/-- Emitter of src/lib/index.ts lines 102-275: the SNS client, the topic
ARN, and the namespace, defaulting to the root separator. The constructor
stores the namespace as given, with no normalization. -/
structure Emitter where
  snsClient : SNSClient
  topicArn : String
  nsp : String := "/"

/-- The broadcastOptions record the constructor assembles from its
arguments (src/lib/index.ts lines 111-114). -/
def Emitter.broadcastOptions (e : Emitter) : BroadcastOptions :=
  { nsp := e.nsp, topicArn := e.topicArn }

/-- Emitter.of, src/lib/index.ts lines 123-129: a new emitter for the given
namespace, prefixed with the separator when the first character is not
already the separator. -/
def Emitter.of (e : Emitter) (nsp : String) : Emitter :=
  { snsClient := e.snsClient, topicArn := e.topicArn,
    nsp := (if nsp.data.head? ≠ some '/' then "/" else "") ++ nsp }

/-- Emitter.emit delegates to a freshly created BroadcastOperator. -/
def Emitter.emit (e : Emitter) (ev : String) (args : List WireVal) :
    List PublishRecord × Except EmitterError Bool :=
  (freshOperator e.snsClient e.broadcastOptions).emit ev args

/-- Emitter.to delegates to a freshly created BroadcastOperator. -/
def Emitter.to (e : Emitter) (room : StrOrList) : BroadcastOperator :=
  (freshOperator e.snsClient e.broadcastOptions).to room

/-- Emitter.in delegates to a freshly created BroadcastOperator. -/
def Emitter.in_ (e : Emitter) (room : StrOrList) : BroadcastOperator :=
  (freshOperator e.snsClient e.broadcastOptions).in_ room

/-- Emitter.except delegates to a freshly created BroadcastOperator. -/
def Emitter.except (e : Emitter) (room : StrOrList) : BroadcastOperator :=
  (freshOperator e.snsClient e.broadcastOptions).except room

/-- Emitter.volatile delegates to a freshly created BroadcastOperator. -/
def Emitter.volatile (e : Emitter) : BroadcastOperator :=
  (freshOperator e.snsClient e.broadcastOptions).volatile

/-- Emitter.compress delegates to a freshly created BroadcastOperator. -/
def Emitter.compress (e : Emitter) (c : Bool) : BroadcastOperator :=
  (freshOperator e.snsClient e.broadcastOptions).compress c

/-- Emitter.socketsJoin delegates to a freshly created BroadcastOperator. -/
def Emitter.socketsJoin (e : Emitter) (rooms : StrOrList) :
    List PublishRecord × Except EmitterError Unit :=
  (freshOperator e.snsClient e.broadcastOptions).socketsJoin rooms

/-- Emitter.socketsLeave delegates to a freshly created BroadcastOperator. -/
def Emitter.socketsLeave (e : Emitter) (rooms : StrOrList) :
    List PublishRecord × Except EmitterError Unit :=
  (freshOperator e.snsClient e.broadcastOptions).socketsLeave rooms

/-- Emitter.disconnectSockets delegates to a freshly created
BroadcastOperator. -/
def Emitter.disconnectSockets (e : Emitter) (close : Bool := false) :
    List PublishRecord × Except EmitterError Unit :=
  (freshOperator e.snsClient e.broadcastOptions).disconnectSockets close

/-- Emitter.serverSideEmit, src/lib/index.ts lines 257-274: throws when the
last argument is a function, otherwise publishes the raw argument list as
the packet field with the SERVER_SIDE_EMIT discriminator. -/
def Emitter.serverSideEmit (e : Emitter) (args : List WireVal) :
    List PublishRecord × Except EmitterError Unit :=
  if lastIsFunction args then
    ([], .error .ackUnsupported)
  else
    ([publish e.snsClient e.broadcastOptions.topicArn
        MessageType.SERVER_SIDE_EMIT e.broadcastOptions.nsp UID
        (some (.obj [("packet", .list args)]))],
     .ok ())

/-- One terminal operation of the emitter, used to quantify over every
message-publishing entry point at once. -/
inductive EmitterOp
  | emitOp (ev : String) (args : List WireVal)
  | serverSideEmitOp (args : List WireVal)
  | socketsJoinOp (rooms : StrOrList)
  | socketsLeaveOp (rooms : StrOrList)
  | disconnectSocketsOp (close : Bool)

/-- Run one terminal operation on an emitter, returning the publish
invocations it made and its awaited result (the true of emit dropped). -/
def Emitter.run (e : Emitter) : EmitterOp →
    List PublishRecord × Except EmitterError Unit
  | .emitOp ev args =>
    ((e.emit ev args).fst, (e.emit ev args).snd.map fun _ => ())
  | .serverSideEmitOp args => e.serverSideEmit args
  | .socketsJoinOp rooms => e.socketsJoin rooms
  | .socketsLeaveOp rooms => e.socketsLeave rooms
  | .disconnectSocketsOp close => e.disconnectSockets close

/-- A namespace path starts with the separator character. -/
def startsWithSlash (s : String) : Prop :=
  s.data.head? = some '/'

/-- Every record of a publish transcript satisfies the property. -/
def ListAll (p : PublishRecord → Prop) : List PublishRecord → Prop
  | [] => True
  | r :: rs => p r ∧ ListAll p rs

/-- An SNS client whose sends always succeed. -/
def sendOk : SNSClient := fun _ => Except.ok ()

/-- An SNS client whose sends always fail. -/
def sendFail : SNSClient := fun _ => Except.error "network error"

/-- Concrete broadcast options for witnesses. -/
def demoOptions : BroadcastOptions := { nsp := "/", topicArn := "topic-arn" }

/-- A concrete emitter over the always-succeeding client. -/
def demoEmitter : Emitter := { snsClient := sendOk, topicArn := "topic-arn" }

/-- A concrete emitter over the always-failing client. -/
def demoFailEmitter : Emitter :=
  { snsClient := sendFail, topicArn := "topic-arn" }

/-- A concrete emitter constructed with the empty string as namespace. -/
def demoEmptyNspEmitter : Emitter :=
  { snsClient := sendOk, topicArn := "topic-arn", nsp := "" }

/-- A fresh broadcast operator over the always-succeeding client. -/
def demoOp : BroadcastOperator :=
  { snsClient := sendOk, broadcastOptions := demoOptions }

/-- A fresh broadcast operator over the always-failing client. -/
def demoFailOp : BroadcastOperator :=
  { snsClient := sendFail, broadcastOptions := demoOptions }

/-- A broadcast operator with the volatile flag set. -/
def demoVolatileOp : BroadcastOperator := demoOp.volatile

/-! Helper lemmas about the set representation and the attribute list. -/

theorem ListAll_cons {p : PublishRecord → Prop} {r : PublishRecord}
    {rs : List PublishRecord} : ListAll p (r :: rs) ↔ p r ∧ ListAll p rs :=
  Iff.rfl

theorem mem_setAdd {s : List String} {y x : String} :
    x ∈ setAdd s y ↔ x ∈ s ∨ x = y := by
  unfold setAdd
  split
  · next h => exact ⟨Or.inl, fun hx => hx.elim id fun he => he ▸ h⟩
  · simp [List.mem_append]

theorem setAdd_eq_of_mem {s : List String} {y : String} (h : y ∈ s) :
    setAdd s y = s := by
  unfold setAdd
  exact if_pos h

theorem mem_foldl_setAdd (rs : List String) (s : List String) (x : String) :
    x ∈ rs.foldl setAdd s ↔ x ∈ s ∨ x ∈ rs := by
  induction rs generalizing s with
  | nil => simp
  | cons y tl ih =>
    rw [List.foldl_cons, ih, mem_setAdd, List.mem_cons]
    tauto

theorem foldl_setAdd_eq_of_subset :
    ∀ {rs s : List String}, (∀ y ∈ rs, y ∈ s) → rs.foldl setAdd s = s
  | [], _, _ => rfl
  | y :: tl, s, h => by
    rw [List.foldl_cons, setAdd_eq_of_mem (h y (List.mem_cons_self y tl))]
    exact foldl_setAdd_eq_of_subset fun z hz => h z (List.mem_cons_of_mem y hz)

theorem mem_addAll {s : List String} {room : StrOrList} {x : String} :
    x ∈ addAll s room ↔ x ∈ s ∨ x ∈ asList room := by
  cases room with
  | inl r => simp [addAll, asList, mem_setAdd]
  | inr rs => simp [addAll, asList, mem_foldl_setAdd rs s x]

theorem addAll_idem (s : List String) (room : StrOrList) :
    addAll (addAll s room) room = addAll s room := by
  cases room with
  | inl r => exact setAdd_eq_of_mem (mem_setAdd.mpr (Or.inr rfl))
  | inr rs =>
    exact foldl_setAdd_eq_of_subset fun y hy =>
      (mem_foldl_setAdd rs s y).mpr (Or.inr hy)

theorem publishAttrs_of_ne {nsp : String} (data : Option WireVal)
    (h : nsp ≠ "") :
    publishAttrs nsp data =
      ("nsp", .strVal nsp) :: ("uid", .strVal UID) :: dataAttr data := by
  unfold publishAttrs
  rw [if_pos h, if_pos (by decide : UID ≠ "")]
  rfl

theorem publishAttrs_of_empty (data : Option WireVal) :
    publishAttrs "" data = ("uid", .strVal UID) :: dataAttr data := by
  unfold publishAttrs
  rw [if_neg (by decide : ¬("" : String) ≠ ""), if_pos (by decide : UID ≠ "")]
  rfl

theorem lookup_nsp_of_ne {nsp : String} (data : Option WireVal)
    (h : nsp ≠ "") :
    (publishAttrs nsp data).lookup "nsp" = some (.strVal nsp) := by
  rw [publishAttrs_of_ne data h]
  rfl

theorem lookup_uid_of_ne {nsp : String} (data : Option WireVal)
    (h : nsp ≠ "") :
    (publishAttrs nsp data).lookup "uid" = some (.strVal "emitter") := by
  rw [publishAttrs_of_ne data h]
  rfl

theorem lookup_nsp_of_empty (data : Option WireVal) :
    (publishAttrs "" data).lookup "nsp" = none := by
  rw [publishAttrs_of_empty data]
  cases data <;> rfl

theorem lookup_uid_of_empty (data : Option WireVal) :
    (publishAttrs "" data).lookup "uid" = some (.strVal "emitter") := by
  rw [publishAttrs_of_empty data]
  rfl

theorem lookup_data {nsp : String} (d : WireVal) :
    (publishAttrs nsp (some d)).lookup "data" = some (.binVal d) := by
  by_cases h : nsp = ""
  · subst h
    rw [publishAttrs_of_empty]
    rfl
  · rw [publishAttrs_of_ne _ h]
    rfl

theorem isFn_iff (v : WireVal) : v.isFn = true ↔ v = WireVal.fn := by
  cases v
  case fn => exact ⟨fun _ => rfl, fun _ => rfl⟩
  all_goals exact ⟨fun h => Bool.noConfusion h, fun h => WireVal.noConfusion h⟩

theorem lastIsFunction_iff (args : List WireVal) :
    lastIsFunction args = true ↔ args.getLast? = some WireVal.fn := by
  unfold lastIsFunction
  cases h : args.getLast? with
  | none => simp
  | some v => simp [isFn_iff]

/-! Claim theorems. -/

/-- C7: the default namespace is the separator alone, and of (narrow)
returns a dispatcher with the same client and topic whose namespace is the
given path prefixed with the separator when the prefix is missing, so
of "custom" and of "/custom" both yield the namespace path "/custom"; every
namespace produced by of starts with the separator. -/
theorem namespace_normalization (c : SNSClient) (a : String) (e : Emitter)
    (p : String) :
    ({ snsClient := c, topicArn := a } : Emitter).nsp = "/"
    ∧ (e.of p).snsClient = e.snsClient
    ∧ (e.of p).topicArn = e.topicArn
    ∧ startsWithSlash (e.of p).nsp
    ∧ (e.of p).nsp = (if p.data.head? = some '/' then p else "/" ++ p)
    ∧ (e.of "custom").nsp = "/custom"
    ∧ (e.of "/custom").nsp = "/custom" := by
  refine ⟨rfl, rfl, rfl, ?_, ?_, rfl, rfl⟩
  · unfold startsWithSlash Emitter.of
    by_cases h : p.data.head? = some '/'
    · rw [if_neg (not_not_intro h)]
      exact h
    · rw [if_pos h]
      rfl
  · unfold Emitter.of
    by_cases h : p.data.head? = some '/'
    · rw [if_neg (not_not_intro h), if_pos h]
      rfl
    · rw [if_pos h, if_neg h]

/-- C8: every selector of a broadcast target returns a value that leaves
every component of the receiver other than its own unchanged: to keeps the
exclusion set, the flags, the client and the options; in delegates to to;
except keeps the room set, the flags, the client and the options; compress
keeps both sets, the client, the options and the volatile flag; volatile
keeps both sets, the client, the options and the compress flag. -/
theorem selector_frame_conditions (b : BroadcastOperator) (room : StrOrList)
    (c : Bool) :
    ((b.to room).exceptRooms = b.exceptRooms ∧ (b.to room).flags = b.flags
      ∧ (b.to room).snsClient = b.snsClient
      ∧ (b.to room).broadcastOptions = b.broadcastOptions)
    ∧ b.in_ room = b.to room
    ∧ ((b.except room).rooms = b.rooms ∧ (b.except room).flags = b.flags
      ∧ (b.except room).snsClient = b.snsClient
      ∧ (b.except room).broadcastOptions = b.broadcastOptions)
    ∧ ((b.compress c).rooms = b.rooms
      ∧ (b.compress c).exceptRooms = b.exceptRooms
      ∧ (b.compress c).snsClient = b.snsClient
      ∧ (b.compress c).broadcastOptions = b.broadcastOptions
      ∧ (b.compress c).flags.volatile = b.flags.volatile)
    ∧ (b.volatile.rooms = b.rooms ∧ b.volatile.exceptRooms = b.exceptRooms
      ∧ b.volatile.snsClient = b.snsClient
      ∧ b.volatile.broadcastOptions = b.broadcastOptions
      ∧ b.volatile.flags.compress = b.flags.compress) :=
  ⟨⟨rfl, rfl, rfl, rfl⟩, rfl, ⟨rfl, rfl, rfl, rfl⟩,
   ⟨rfl, rfl, rfl, rfl, rfl⟩, ⟨rfl, rfl, rfl, rfl, rfl⟩⟩

/-- C9: to unions the given room or rooms into the room set and except does
the same for the exclusion set; the union is idempotent, a single room
behaves exactly like the one-element list, accumulation is order
independent up to set membership, and chaining to "a" then to "b" on a
fresh target yields exactly the room set containing "a" and "b" in either
call order. -/
theorem room_union_accumulation (b : BroadcastOperator)
    (room room2 : StrOrList) (r x : String) :
    (x ∈ (b.to room).rooms ↔ x ∈ b.rooms ∨ x ∈ asList room)
    ∧ (x ∈ (b.except room).exceptRooms ↔ x ∈ b.exceptRooms ∨ x ∈ asList room)
    ∧ (b.to room).to room = b.to room
    ∧ (b.except room).except room = b.except room
    ∧ b.to (Sum.inl r) = b.to (Sum.inr [r])
    ∧ b.except (Sum.inl r) = b.except (Sum.inr [r])
    ∧ (x ∈ ((b.to room).to room2).rooms ↔ x ∈ ((b.to room2).to room).rooms)
    ∧ (x ∈ ((demoOp.to (Sum.inl "a")).to (Sum.inl "b")).rooms
        ↔ x = "a" ∨ x = "b")
    ∧ (x ∈ ((demoOp.to (Sum.inl "b")).to (Sum.inl "a")).rooms
        ↔ x = "a" ∨ x = "b") := by
  refine ⟨mem_addAll, mem_addAll, ?_, ?_, rfl, rfl, ?_, ?_, ?_⟩
  · simp [BroadcastOperator.to, addAll_idem]
  · simp [BroadcastOperator.except, addAll_idem]
  · simp only [BroadcastOperator.to, mem_addAll]
    tauto
  · show x ∈ (["a", "b"] : List String) ↔ x = "a" ∨ x = "b"
    simp
  · show x ∈ (["b", "a"] : List String) ↔ x = "a" ∨ x = "b"
    simp only [List.mem_cons, List.mem_singleton, List.not_mem_nil, or_false]
    exact or_comm

/-- C3: for any SNS client, including one whose sends always fail, every
terminal action resolves normally — emit to true, the others to unit — and
every publish invocation records as its logged diagnostic exactly the
outcome of handing its input to the client, so a send error is caught and
logged at the publish boundary and never re-raised. -/
theorem publish_errors_swallowed (b : BroadcastOperator) (e : Emitter)
    (ev : String) (args eargs : List WireVal) (rooms : StrOrList)
    (close : Bool) (hev : ev ∉ RESERVED_EVENTS)
    (hack : lastIsFunction eargs = false) :
    (b.emit ev args).snd = Except.ok true
    ∧ (b.socketsJoin rooms).snd = Except.ok ()
    ∧ (b.socketsLeave rooms).snd = Except.ok ()
    ∧ (b.disconnectSockets close).snd = Except.ok ()
    ∧ (e.serverSideEmit eargs).snd = Except.ok ()
    ∧ ListAll (fun r => r.logged = publishOutcome (b.snsClient r.input))
        (b.emit ev args).fst
    ∧ ListAll (fun r => r.logged = publishOutcome (b.snsClient r.input))
        (b.socketsJoin rooms).fst
    ∧ ListAll (fun r => r.logged = publishOutcome (b.snsClient r.input))
        (b.socketsLeave rooms).fst
    ∧ ListAll (fun r => r.logged = publishOutcome (b.snsClient r.input))
        (b.disconnectSockets close).fst
    ∧ ListAll (fun r => r.logged = publishOutcome (e.snsClient r.input))
        (e.serverSideEmit eargs).fst := by
  unfold BroadcastOperator.emit Emitter.serverSideEmit
  rw [if_neg hev, if_neg (by simp [hack])]
  exact ⟨rfl, rfl, rfl, rfl, rfl, ⟨rfl, trivial⟩, ⟨rfl, trivial⟩,
    ⟨rfl, trivial⟩, ⟨rfl, trivial⟩, ⟨rfl, trivial⟩⟩

/-- Witness for C3 at a client whose sends always fail: emit still resolves
to true, serverSideEmit still resolves, and the failed send is logged. -/
theorem publish_errors_swallowed_witness :
    ("payload" ∉ RESERVED_EVENTS)
    ∧ lastIsFunction [] = false
    ∧ (demoFailOp.emit "payload" []).snd = Except.ok true
    ∧ (demoFailEmitter.serverSideEmit []).snd = Except.ok ()
    ∧ (demoFailOp.emit "payload" []).fst.map PublishRecord.logged =
        [some "network error"] :=
  ⟨by decide, rfl,
   (publish_errors_swallowed demoFailOp demoFailEmitter "payload" [] []
      (Sum.inl "room1") true (by decide) rfl).1,
   (publish_errors_swallowed demoFailOp demoFailEmitter "payload" [] []
      (Sum.inl "room1") true (by decide) rfl).2.2.2.2.1,
   rfl⟩

/-- C4: the reserved set is exactly connect, connect_error, disconnect,
disconnecting, newListener and removeListener; for a reserved name, emit on
an Emitter or on any BroadcastOperator returns the reserved-event error
with an empty publish transcript, so the transport is never invoked; for a
non-reserved name no such error is raised and emit resolves to true. -/
theorem reserved_event_guard (b : BroadcastOperator) (e : Emitter)
    (ev : String) (args : List WireVal) :
    (ev ∈ RESERVED_EVENTS ↔ (ev = "connect" ∨ ev = "connect_error"
      ∨ ev = "disconnect" ∨ ev = "disconnecting" ∨ ev = "newListener"
      ∨ ev = "removeListener"))
    ∧ (ev ∈ RESERVED_EVENTS →
        b.emit ev args = ([], .error (.reservedEvent ev))
        ∧ e.emit ev args = ([], .error (.reservedEvent ev)))
    ∧ (ev ∉ RESERVED_EVENTS →
        (b.emit ev args).snd = Except.ok true
        ∧ (e.emit ev args).snd = Except.ok true) := by
  refine ⟨by simp [RESERVED_EVENTS], fun h => ?_, fun h => ?_⟩
  · unfold Emitter.emit BroadcastOperator.emit
    rw [if_pos h, if_pos h]
    exact ⟨rfl, rfl⟩
  · unfold Emitter.emit BroadcastOperator.emit
    rw [if_neg h, if_neg h]
    exact ⟨rfl, rfl⟩

/-- Witness for C4 at the reserved name connect and the plain name
payload. -/
theorem reserved_event_guard_witness :
    ("connect" ∈ RESERVED_EVENTS)
    ∧ demoOp.emit "connect" [] = ([], .error (.reservedEvent "connect"))
    ∧ demoEmitter.emit "connect" [] = ([], .error (.reservedEvent "connect"))
    ∧ ("payload" ∉ RESERVED_EVENTS)
    ∧ (demoOp.emit "payload" []).snd = Except.ok true :=
  ⟨by decide,
   ((reserved_event_guard demoOp demoEmitter "connect" []).2.1 (by decide)).1,
   ((reserved_event_guard demoOp demoEmitter "connect" []).2.1 (by decide)).2,
   by decide,
   ((reserved_event_guard demoOp demoEmitter "payload" []).2.2 (by decide)).1⟩

/-- C5: serverSideEmit fails with the unsupported-acknowledgement error
exactly when the last argument is a function value, in which case no
publish is invoked; otherwise the single published payload carries the
argument list, unchanged and in order, as its packet field; the error
message is the unsupported-feature text. -/
theorem serverSideEmit_ack_guard (e : Emitter) (args : List WireVal) :
    ((e.serverSideEmit args).snd = Except.error EmitterError.ackUnsupported
      ↔ args.getLast? = some WireVal.fn)
    ∧ (args.getLast? = some WireVal.fn →
        e.serverSideEmit args = ([], .error .ackUnsupported))
    ∧ (args.getLast? ≠ some WireVal.fn →
        (e.serverSideEmit args).fst.map
          (fun r => r.input.attrs.lookup "data") =
        [some (.binVal (.obj [("packet", .list args)]))])
    ∧ EmitterError.ackUnsupported.message =
        "Acknowledgements are not supported" := by
  have hiff := lastIsFunction_iff args
  by_cases h : lastIsFunction args = true
  · have hl : args.getLast? = some WireVal.fn := hiff.mp h
    unfold Emitter.serverSideEmit
    rw [if_pos h]
    exact ⟨by simp [hl], fun _ => rfl, fun hc => absurd hl hc, rfl⟩
  · have hl : args.getLast? ≠ some WireVal.fn := fun hx => h (hiff.mpr hx)
    unfold Emitter.serverSideEmit
    rw [if_neg h]
    refine ⟨by simp [hl], fun hx => absurd hx hl, fun _ => ?_, rfl⟩
    simp [publish, publishInput, lookup_data]

/-- Witness for C5: a trailing function argument fails without publishing,
and a plain argument list is published verbatim as the packet field. -/
theorem serverSideEmit_ack_guard_witness :
    ([WireVal.fn].getLast? = some WireVal.fn)
    ∧ demoEmitter.serverSideEmit [WireVal.fn] = ([], .error .ackUnsupported)
    ∧ ([WireVal.str "hello"].getLast? ≠ some WireVal.fn)
    ∧ (demoEmitter.serverSideEmit [WireVal.str "hello"]).fst.map
        (fun r => r.input.attrs.lookup "data") =
      [some (.binVal (.obj [("packet", .list [WireVal.str "hello"])]))] :=
  ⟨rfl,
   (serverSideEmit_ack_guard demoEmitter [WireVal.fn]).2.1 rfl,
   fun h => WireVal.noConfusion (Option.some.inj h),
   (serverSideEmit_ack_guard demoEmitter [WireVal.str "hello"]).2.2.1
     (fun h => WireVal.noConfusion (Option.some.inj h))⟩

/-- C6: for a non-reserved event on a target with a non-empty namespace,
emit hands the SNS client exactly one message: the topic, the BROADCAST
discriminator rendered as a string, and the attribute map holding nsp, the
uid constant emitter, and the codec encoding of the packet record
(event-packet-type marker, event plus arguments in order, namespace) next
to the opts record (room list, flags, exclusion list). -/
theorem emit_wire_message_shape (b : BroadcastOperator) (ev : String)
    (args : List WireVal) (hev : ev ∉ RESERVED_EVENTS)
    (hnsp : b.broadcastOptions.nsp ≠ "") :
    (b.emit ev args).fst.map PublishRecord.input =
      [{ topicArn := b.broadcastOptions.topicArn,
         message := toString MessageType.BROADCAST,
         attrs := [
           ("nsp", .strVal b.broadcastOptions.nsp),
           ("uid", .strVal "emitter"),
           ("data", .binVal (.obj [
             ("packet", .obj [
               ("type", .num PacketType.EVENT),
               ("data", .list (.str ev :: args)),
               ("nsp", .str b.broadcastOptions.nsp)]),
             ("opts", .obj [
               ("rooms", .list (b.rooms.map WireVal.str)),
               ("flags", flagsToWire b.flags),
               ("except", .list (b.exceptRooms.map WireVal.str))])]))] }] := by
  unfold BroadcastOperator.emit
  rw [if_neg hev]
  simp [publish, publishInput, publishAttrs_of_ne _ hnsp, UID, dataAttr]

/-- Witness for C6 at a fresh target, the event payload and one numeric
argument. -/
theorem emit_wire_message_shape_witness :
    ("payload" ∉ RESERVED_EVENTS)
    ∧ demoOp.broadcastOptions.nsp ≠ ""
    ∧ (demoOp.emit "payload" [WireVal.num 1]).fst.map PublishRecord.input =
      [{ topicArn := "topic-arn",
         message := "3",
         attrs := [
           ("nsp", .strVal "/"),
           ("uid", .strVal "emitter"),
           ("data", .binVal (.obj [
             ("packet", .obj [
               ("type", .num 2),
               ("data", .list [.str "payload", .num 1]),
               ("nsp", .str "/")]),
             ("opts", .obj [
               ("rooms", .list []),
               ("flags", .obj []),
               ("except", .list [])])]))] }] :=
  ⟨by decide, by decide,
   emit_wire_message_shape demoOp "payload" [WireVal.num 1]
     (by decide) (by decide)⟩

/-- Every operation publishes nothing, or exactly one message built by
publish with the emitter's topic and namespace. -/
theorem run_transcript (e : Emitter) (op : EmitterOp) :
    (e.run op).fst = [] ∨
    ∃ t d, (e.run op).fst =
      [publish e.snsClient e.topicArn t e.nsp UID (some d)] := by
  cases op with
  | emitOp ev args =>
    by_cases h : ev ∈ RESERVED_EVENTS
    · left
      show (e.emit ev args).fst = []
      unfold Emitter.emit BroadcastOperator.emit
      rw [if_pos h]
    · right
      refine ⟨MessageType.BROADCAST,
        .obj [("packet", .obj [("type", .num PacketType.EVENT),
                ("data", .list (.str ev :: args)), ("nsp", .str e.nsp)]),
              ("opts", .obj [("rooms", .list []), ("flags", .obj []),
                ("except", .list [])])], ?_⟩
      show (e.emit ev args).fst = _
      unfold Emitter.emit BroadcastOperator.emit
      rw [if_neg h]
      rfl
  | serverSideEmitOp args =>
    by_cases h : lastIsFunction args = true
    · left
      show (e.serverSideEmit args).fst = []
      unfold Emitter.serverSideEmit
      rw [if_pos h]
    · right
      refine ⟨MessageType.SERVER_SIDE_EMIT, .obj [("packet", .list args)], ?_⟩
      show (e.serverSideEmit args).fst = _
      unfold Emitter.serverSideEmit
      rw [if_neg h]
      rfl
  | socketsJoinOp rooms =>
    right
    exact ⟨MessageType.SOCKETS_JOIN,
      .obj [("opts", .obj [("rooms", .list []), ("except", .list [])]),
            ("rooms", .list ((asList rooms).map WireVal.str))], rfl⟩
  | socketsLeaveOp rooms =>
    right
    exact ⟨MessageType.SOCKETS_LEAVE,
      .obj [("opts", .obj [("rooms", .list []), ("except", .list [])]),
            ("rooms", .list ((asList rooms).map WireVal.str))], rfl⟩
  | disconnectSocketsOp close =>
    right
    exact ⟨MessageType.DISCONNECT_SOCKETS,
      .obj [("opts", .obj [("rooms", .list []), ("except", .list [])]),
            ("close", .bool close)], rfl⟩

/-- C1 counterexample: serverSideEmit publishes the wire message carrying
the discriminator string "9" (the adapter MessageType.SERVER_SIDE_EMIT),
not "6", the value the claimed table assigns to SERVER_SIDE_EMIT; that
table matches only the unused local RequestType enum. -/
theorem serverSideEmit_discriminator_not_six :
    ((demoEmitter.serverSideEmit [WireVal.str "hello", WireVal.str "world",
        WireVal.num 1, WireVal.str "2"]).fst.map
      (fun r => r.input.message)) = ["9"]
    ∧ toString RequestType.SERVER_SIDE_EMIT = "6"
    ∧ ("9" : String) ≠ "6" :=
  ⟨rfl, rfl, by decide⟩

/-- C1 amended: every published wire message carries the discriminator of
the external adapter MessageType enum for its operation — BROADCAST = 3 for
emit, SOCKETS_JOIN = 4, SOCKETS_LEAVE = 5, DISCONNECT_SOCKETS = 6 and
SERVER_SIDE_EMIT = 9 for serverSideEmit — and the serverSideEmit
discriminator differs from the value 6 of the local RequestType enum that
the claimed table describes. -/
theorem published_discriminators_match_adapter (b : BroadcastOperator)
    (e : Emitter) (ev : String) (args eargs : List WireVal)
    (rooms : StrOrList) (close : Bool) :
    ListAll (fun r => r.input.message = toString MessageType.BROADCAST)
      (b.emit ev args).fst
    ∧ ListAll (fun r => r.input.message = toString MessageType.SOCKETS_JOIN)
        (b.socketsJoin rooms).fst
    ∧ ListAll (fun r => r.input.message = toString MessageType.SOCKETS_LEAVE)
        (b.socketsLeave rooms).fst
    ∧ ListAll
        (fun r => r.input.message = toString MessageType.DISCONNECT_SOCKETS)
        (b.disconnectSockets close).fst
    ∧ ListAll
        (fun r => r.input.message = toString MessageType.SERVER_SIDE_EMIT)
        (e.serverSideEmit eargs).fst
    ∧ MessageType.BROADCAST = 3
    ∧ MessageType.SOCKETS_JOIN = 4
    ∧ MessageType.SOCKETS_LEAVE = 5
    ∧ MessageType.DISCONNECT_SOCKETS = 6
    ∧ MessageType.SERVER_SIDE_EMIT = 9
    ∧ MessageType.SERVER_SIDE_EMIT ≠ RequestType.SERVER_SIDE_EMIT := by
  have hemit :
      ListAll (fun r => r.input.message = toString MessageType.BROADCAST)
        (b.emit ev args).fst := by
    unfold BroadcastOperator.emit
    split
    · trivial
    · exact ⟨rfl, trivial⟩
  have hsse :
      ListAll (fun r => r.input.message = toString MessageType.SERVER_SIDE_EMIT)
        (e.serverSideEmit eargs).fst := by
    unfold Emitter.serverSideEmit
    split
    · trivial
    · exact ⟨rfl, trivial⟩
  exact ⟨hemit, ⟨rfl, trivial⟩, ⟨rfl, trivial⟩, ⟨rfl, trivial⟩, hsse,
    rfl, rfl, rfl, rfl, rfl, by decide⟩

/-- C2 counterexample: a target whose volatile flag is set publishes a
socketsJoin payload whose targeting record holds only the room list and the
exclusion list — it has no flags key at all, so the record is not the full
snapshot including the flags. -/
theorem socketsJoin_omits_flags :
    demoVolatileOp.flags = { volatile := some true, compress := none }
    ∧ ((demoVolatileOp.socketsJoin (Sum.inl "room3")).fst.map
        (fun r => r.input.attrs.lookup "data")) =
      [some (MessageAttributeValue.binVal (WireVal.obj
        [("opts", WireVal.obj [("rooms", WireVal.list []),
                               ("except", WireVal.list [])]),
         ("rooms", WireVal.list [WireVal.str "room3"])]))]
    ∧ (WireVal.obj [("rooms", WireVal.list []),
        ("except", WireVal.list [])]).field "flags" = none :=
  ⟨rfl, rfl, rfl⟩

/-- C2 amended: socketsJoin, socketsLeave and disconnectSockets publish a
payload whose targeting record carries exactly the room set and the
exclusion set at call time (as ordered lists); the flags are not part of
these messages. -/
theorem sockets_ops_targeting_record (b : BroadcastOperator)
    (rooms : StrOrList) (close : Bool) :
    (b.socketsJoin rooms).fst.map (fun r => r.input.attrs.lookup "data") =
      [some (.binVal (.obj [
        ("opts", .obj [
          ("rooms", .list (b.rooms.map WireVal.str)),
          ("except", .list (b.exceptRooms.map WireVal.str))]),
        ("rooms", .list ((asList rooms).map WireVal.str))]))]
    ∧ (b.socketsLeave rooms).fst.map (fun r => r.input.attrs.lookup "data") =
      [some (.binVal (.obj [
        ("opts", .obj [
          ("rooms", .list (b.rooms.map WireVal.str)),
          ("except", .list (b.exceptRooms.map WireVal.str))]),
        ("rooms", .list ((asList rooms).map WireVal.str))]))]
    ∧ (b.disconnectSockets close).fst.map
        (fun r => r.input.attrs.lookup "data") =
      [some (.binVal (.obj [
        ("opts", .obj [
          ("rooms", .list (b.rooms.map WireVal.str)),
          ("except", .list (b.exceptRooms.map WireVal.str))]),
        ("close", .bool close)]))] := by
  refine ⟨?_, ?_, ?_⟩ <;>
    simp [BroadcastOperator.socketsJoin, BroadcastOperator.socketsLeave,
      BroadcastOperator.disconnectSockets, publish, publishInput, lookup_data]

/-- C10: the constructor stores the namespace as given; when an emitter is
built with the empty namespace every published message omits the nsp
attribute while the uid attribute is present with value emitter; for every
non-empty namespace the nsp attribute is present and equal to the
namespace path. -/
theorem empty_namespace_nsp_attribute (e : Emitter) (op : EmitterOp)
    (c : SNSClient) (a s : String) :
    ({ snsClient := c, topicArn := a, nsp := s } : Emitter).nsp = s
    ∧ (e.nsp = "" →
        ListAll (fun r => r.input.attrs.lookup "nsp" = none
          ∧ r.input.attrs.lookup "uid" = some (.strVal "emitter"))
          (e.run op).fst)
    ∧ (e.nsp ≠ "" →
        ListAll (fun r => r.input.attrs.lookup "nsp" = some (.strVal e.nsp)
          ∧ r.input.attrs.lookup "uid" = some (.strVal "emitter"))
          (e.run op).fst) := by
  refine ⟨rfl, fun h => ?_, fun h => ?_⟩
  · rcases run_transcript e op with hT | ⟨t, d, hT⟩ <;> rw [hT]
    · trivial
    · refine ⟨⟨?_, ?_⟩, trivial⟩
      · show (publishAttrs e.nsp (some d)).lookup "nsp" = none
        rw [h]
        exact lookup_nsp_of_empty _
      · show (publishAttrs e.nsp (some d)).lookup "uid" =
          some (.strVal "emitter")
        rw [h]
        exact lookup_uid_of_empty _
  · rcases run_transcript e op with hT | ⟨t, d, hT⟩ <;> rw [hT]
    · trivial
    · exact ⟨⟨lookup_nsp_of_ne _ h, lookup_uid_of_ne _ h⟩, trivial⟩

/-- Witness for C10 at an emitter constructed with the empty namespace,
running serverSideEmit. -/
theorem empty_namespace_nsp_attribute_witness :
    demoEmptyNspEmitter.nsp = ""
    ∧ ListAll (fun r => r.input.attrs.lookup "nsp" = none
        ∧ r.input.attrs.lookup "uid" = some (.strVal "emitter"))
        (demoEmptyNspEmitter.run (.serverSideEmitOp [])).fst :=
  ⟨rfl, (empty_namespace_nsp_attribute demoEmptyNspEmitter
      (.serverSideEmitOp []) sendOk "topic-arn" "").2.1 rfl⟩
